import Mathlib

/-!
Verification of the question-selection and data-integrity layer of a
Telegram MCQ bot.  The definitions below are a shallow embedding of the
Python source files `src/api/webhook.py`, `src/mcq_manager.py` and
`src/send-mcq.py`:

  * the flat CSV store is a `List` of rows;
  * `handle_answer_callback` / `evaluate_answer` embed the callback
    handler of `webhook.py` (answer evaluation);
  * `process_csv_data` embeds the admin ingestion pipeline of
    `webhook.py`;
  * `validate_question_data` embeds the validator of `mcq_manager.py`;
  * `get_random_question` embeds the selector of `mcq_manager.py`, with
    the randomness of `DataFrame.sample` supplied as an explicit index.

Python exceptions are modelled as explicit error results; the generic
`except Exception` handlers of the source become dedicated error
constructors.  Emoji prefixes of the user-facing messages are elided.
-/

/-- Python `str.upper()` restricted to the ASCII alphabet (all inputs of
interest are option letters and header words). -/
def strUpper (s : String) : String :=
  String.mk (s.data.map Char.toUpper)

/-- Python `str.split(sep)` for a one-character separator: splitting the
empty string yields `[""]`, and consecutive separators yield empty
fields, exactly as in Python. -/
def pySplitAux (sep : Char) : List Char → List Char → List String
  | [], cur => [String.mk cur.reverse]
  | c :: rest, cur =>
    if c = sep then String.mk cur.reverse :: pySplitAux sep rest []
    else pySplitAux sep rest (c :: cur)

/-- Python `str.split(sep)` for a one-character separator. -/
def pySplit (sep : Char) (s : String) : List String :=
  pySplitAux sep s.data []

/-- Python `str.strip()`: remove leading and trailing whitespace. -/
def pyStrip (s : String) : String :=
  String.mk (((s.data.dropWhile Char.isWhitespace).reverse.dropWhile
    Char.isWhitespace).reverse)

/-- Python `int(s)` on the strings this bot feeds it: optional
surrounding whitespace, an optional sign, then a non-empty run of
decimal digits; any other string raises `ValueError` (`none` here). -/
def pyToInt? (s : String) : Option Int :=
  let t := ((s.data.dropWhile Char.isWhitespace).reverse.dropWhile
    Char.isWhitespace).reverse
  let signDigits : Int × List Char :=
    match t with
    | '-' :: rest => (-1, rest)
    | '+' :: rest => (1, rest)
    | _ => (1, t)
  if signDigits.snd ≠ [] ∧ signDigits.snd.all Char.isDigit then
    some (signDigits.fst *
      (signDigits.snd.foldl (fun acc c => 10 * acc + (c.toNat - 48)) 0 : Nat))
  else none

/-- One stored question: a row of the `neet-pg-mcqs.csv` table with the
twelve columns `Year, Question Number, Subject, Topic, Question,
Option 1..4, Answer, Explanation, Source`.  `questionNumber` is an `Int`
because `pandas.read_csv` parses that column as an integer and the
handler compares it against `int(question_id)`. -/
structure Question where
  year : Int
  questionNumber : Int
  subject : String
  topic : String
  question : String
  option1 : String
  option2 : String
  option3 : String
  option4 : String
  answer : String
  explanation : String
  source : String
deriving Repr, DecidableEq

/-- Result of the callback handler `handle_answer_callback`:
either one of its error replies or the feedback message, whose payload
keeps the data that the feedback text interpolates. -/
inductive CallbackResult where
  /-- reply "Invalid callback data" -/
  | invalidCallback : CallbackResult
  /-- reply "Question not found" -/
  | questionNotFound : CallbackResult
  /-- a Python exception reached the generic handler:
      reply "Error processing your answer. Please try again." -/
  | processingError : CallbackResult
  /-- the feedback message, carrying `is_correct`, the resolved
      `correct_option_text`, and the row's subject, topic, explanation
      and source -/
  | feedback (is_correct : Bool) (correct_option_text : String)
      (subject topic explanation source : String) : CallbackResult
deriving Repr, DecidableEq

/-- `df[df['Question Number'] == n]` followed by `.iloc[0]`: the first
stored row whose question number is `n`, if any. -/
def lookupQuestion (df : List Question) (n : Int) : Option Question :=
  match df.filter (fun q => q.questionNumber == n) with
  | [] => none
  | q :: _ => some q

/-- `ord(correct_answer.upper()) - ord("A") + 1`.  Python's `ord` only
accepts a one-character string, so anything else yields `none`
(a `TypeError` in the source, caught by the generic handler). -/
def ordOffset (s : String) : Option Int :=
  match (strUpper s).toList with
  | [c] => some ((c.toNat : Int) - 65 + 1)
  | _ => none

/-- `question_data[f'Option {n}']`: positional access to the four option
columns; any other index is a `KeyError` (here `none`). -/
def optionColumn (q : Question) (n : Int) : Option String :=
  if n = 1 then some q.option1
  else if n = 2 then some q.option2
  else if n = 3 then some q.option3
  else if n = 4 then some q.option4
  else none

/-- `question_data[f'Option {ord(correct_answer.upper()) - ord("A") + 1}']`:
the display text of the recorded correct option. -/
def optionText (q : Question) (correct_answer : String) : Option String :=
  (ordOffset correct_answer).bind (optionColumn q)

/-- The body of `handle_answer_callback` after the callback string has
been split into its four fields: look the question up by
`int(question_id)`, compare the selected and correct letters
case-insensitively, and resolve the correct option's text. -/
def evaluate_answer (df : List Question)
    (question_id selected_option correct_answer : String) : CallbackResult :=
  match pyToInt? question_id with
  | none => .processingError
  | some n =>
    match lookupQuestion df n with
    | none => .questionNotFound
    | some question_data =>
      let is_correct := strUpper selected_option == strUpper correct_answer
      match optionText question_data correct_answer with
      | none => .processingError
      | some correct_option_text =>
        .feedback is_correct correct_option_text
          question_data.subject question_data.topic
          question_data.explanation question_data.source

/-- `handle_answer_callback` of `webhook.py`: reject an empty payload,
split on underscores, require exactly four fields headed by "answer",
then evaluate.  The store `df` is the table `pd.read_csv` would load. -/
def handle_answer_callback (df : List Question) (callback_data : String) :
    CallbackResult :=
  if callback_data.data.isEmpty then .invalidCallback
  else
    match pySplit '_' callback_data with
    | [p0, question_id, selected_option, correct_answer] =>
      if p0 ≠ "answer" then .invalidCallback
      else evaluate_answer df question_id selected_option correct_answer
    | _ => .invalidCallback

/-- The sample record used by the specification's end-to-end test:
question 1, subject Anatomy, correct option B with text
"Right ventricle". -/
def sampleQ : Question :=
  { year := 2023
    questionNumber := 1
    subject := "Anatomy"
    topic := "Heart"
    question := "Which chamber pumps blood to lungs?"
    option1 := "Right atrium"
    option2 := "Right ventricle"
    option3 := "Left atrium"
    option4 := "Left ventricle"
    answer := "B"
    explanation := "Right ventricle pumps deoxygenated blood to lungs"
    source := "textbook.pdf" }

/-! ## Selector: `MCQManager.get_random_question` (`mcq_manager.py`)

`available_questions.sample(n=1).iloc[0]` draws one row at random; the
randomness is supplied here as an explicit index `k`, reduced modulo the
table length.  The `exclude_recent` branch of the source is
`if exclude_recent: pass` — it filters nothing. -/

/-- `get_random_question(exclude_recent, recent_window_hours)`: raise
`ValueError("No MCQ data available")` on an empty table, otherwise copy
the table, skip the unimplemented recent-question filter, and sample one
row. -/
def get_random_question (df : List Question) (k : Nat)
    (exclude_recent : Bool) (recent_window_hours : Nat) :
    Except String Question :=
  if h : df.length = 0 then .error "No MCQ data available"
  else
    let available_questions := df
    .ok (available_questions.get ⟨k % df.length, Nat.mod_lt _ (Nat.pos_of_ne_zero h)⟩)

/-! ## Validator: `MCQManager.validate_question_data` (`mcq_manager.py`)

`question_data` is a dict-like row: an association list from column name
to cell value, where a present cell holding `none` models a pandas `NaN`
and an absent key models `field not in question_data`. -/

/-- A candidate row as the validator sees it: column name to cell,
`none` standing for `NaN`. -/
def CandidateRow : Type := List (String × Option String)

/-- `question_data[field]` as a total lookup: `none` when the key is
absent, `some cell` otherwise. -/
def fieldLookup (d : CandidateRow) (k : String) : Option (Option String) :=
  (d.find? (fun p => p.fst == k)).map Prod.snd

/-- `field not in question_data or pd.isna(question_data[field])`.
Note `pd.isna` is false on every string, the empty string included. -/
def isMissingOrNa (d : CandidateRow) (k : String) : Bool :=
  match fieldLookup d k with
  | none => true
  | some none => true
  | some (some _) => false

/-- The `required_fields` list of `validate_question_data` (which names
neither `Year` nor `Source`). -/
def required_fields : List String :=
  ["Question Number", "Subject", "Topic", "Question",
   "Option 1", "Option 2", "Option 3", "Option 4",
   "Answer", "Explanation"]

/-- `validate_question_data`: scan `required_fields` in order and fail on
the first missing/NaN one; then require `Answer.upper()` to be one of
A/B/C/D; otherwise the row is valid.  When the answer rule is reached the
loop has already established that `Answer` is present and not NaN, so the
defaulted extraction of its cell never actually defaults. -/
def validate_question_data (question_data : CandidateRow) : Bool × String :=
  match required_fields.find? (fun field => isMissingOrNa question_data field) with
  | some field => (false, "Missing or invalid field: " ++ field)
  | none =>
    let answer := ((fieldLookup question_data "Answer").getD (some "")).getD ""
    if ¬ (["A", "B", "C", "D"].contains (strUpper answer)) then
      (false, "Invalid answer format: " ++ answer)
    else
      (true, "Valid")

/-! ## Ingestion pipeline: `process_csv_data` (`webhook.py`)

The store is the raw CSV table, one row per record.  `csv.reader` on a
single line is embedded as `csvParseLine`: comma-delimited fields, a
double quote opening a field starts a quoted field in which `""` is a
literal quote and a lone `"` closes the quoting. -/

/-- One step of the single-line CSV reader.  Arguments: remaining
characters, inside-quotes flag, current field (reversed), finished
fields (reversed). -/
def csvFieldsAux : List Char → Bool → List Char → List (List Char) → List (List Char)
  | [], _, cur, acc => (cur.reverse :: acc).reverse
  | '"' :: '"' :: rest, true, cur, acc => csvFieldsAux rest true ('"' :: cur) acc
  | '"' :: rest, true, cur, acc => csvFieldsAux rest false cur acc
  | c :: rest, true, cur, acc => csvFieldsAux rest true (c :: cur) acc
  | c :: rest, false, cur, acc =>
    if c = ',' then csvFieldsAux rest false [] (cur.reverse :: acc)
    else if c = '"' ∧ cur = [] then csvFieldsAux rest true cur acc
    else csvFieldsAux rest false (c :: cur) acc

/-- `next(csv.reader(io.StringIO(line)))`: the fields of one CSV line. -/
def csvParseLine (line : String) : List String :=
  (csvFieldsAux line.toList false [] []).map (fun cs => String.mk cs)

/-- The 12-target tuple assignment
`year, q_num, subject, topic, question, opt1, opt2, opt3, opt4, answer,
explanation, source = row[:11]`: Python raises `ValueError` unless the
right-hand list has exactly twelve elements. -/
def unpack12 (l : List String) :
    Option (String × String × String × String × String × String ×
            String × String × String × String × String × String) :=
  match l with
  | [year, q_num, subject, topic, question, opt1, opt2, opt3, opt4,
     answer, explanation, source] =>
    some (year, q_num, subject, topic, question, opt1, opt2, opt3, opt4,
          answer, explanation, source)
  | _ => none

/-- The reply sent from the generic exception handler of
`process_csv_data` when the tuple assignment raises. -/
def unpackErrorReply : String :=
  "Error processing CSV data: not enough values to unpack (expected 12, got 11)"

/-- The reply the generic exception handler would send when
`df_new.columns = columns` assigns the twelve column names to an
eleven-column frame. -/
def columnMismatchReply : String :=
  "Error processing CSV data: Length mismatch: Expected axis has 11 elements, new values have 12 elements"

/-- The twelve column names `process_csv_data` assigns to the new frame. -/
def ingestColumns : List String :=
  ["Year", "Question Number", "Subject", "Topic", "Question",
   "Option 1", "Option 2", "Option 3", "Option 4", "Answer",
   "Explanation", "Source"]

/-- The loop `for line_num, line in enumerate(csv_lines, 1)` of
`process_csv_data`: skip blank lines, parse each remaining line, reject
the whole batch on a short line, then perform the 12-from-11 tuple
assignment, the emptiness check over the first eleven fields and the
answer-letter check, appending `row[:11]` of each surviving line.
Errors carry the admin-facing reply. -/
def processLines : List (Nat × String) → List (List String) →
    Except String (List (List String))
  | [], new_questions => .ok new_questions
  | (line_num, line) :: rest, new_questions =>
    if (pyStrip line).data.isEmpty then processLines rest new_questions
    else
      let row := csvParseLine line
      if row.length < 11 then
        .error ("Line " ++ toString line_num ++ " has only " ++
          toString row.length ++ " fields. Need 11 fields: Year,Question Number,Subject,Topic,Question,Option 1,Option 2,Option 3,Option 4,Answer,Explanation,Source")
      else
        match unpack12 (row.take 11) with
        | none => .error unpackErrorReply
        | some (year, q_num, subject, topic, question, opt1, opt2, opt3,
                opt4, answer, explanation, _source) =>
          if ¬ ([year, q_num, subject, topic, question, opt1, opt2, opt3,
                 opt4, answer, explanation].all (fun f => ¬ f.isEmpty)) then
            .error ("Line " ++ toString line_num ++ " has empty required fields")
          else if ¬ (["A", "B", "C", "D"].contains (strUpper answer)) then
            .error ("Line " ++ toString line_num ++ ": Answer must be A, B, C, or D")
          else
            processLines rest (new_questions ++ [row.take 11])

/-- Outcome of one admin ingestion request: the store after the request
and the reply sent back. -/
structure IngestOutcome where
  store : List (List String)
  reply : String
deriving Repr, DecidableEq

/-- `process_csv_data`: split the admin text into lines, run the loop,
and on success append the accepted rows to the store as one whole-file
write.  Every accepted row is `row[:11]` (eleven cells), so the
assignment of the twelve `ingestColumns` names to the new frame raises
before any write can happen; the guard mirrors that length check of
pandas. -/
def process_csv_data (store : List (List String)) (csv_text : String) :
    IngestOutcome :=
  let csv_lines := pySplit '\n' (pyStrip csv_text)
  let numbered := csv_lines.enum.map (fun p => (p.fst + 1, p.snd))
  match processLines numbered [] with
  | .error reply => ⟨store, reply⟩
  | .ok new_questions =>
    if new_questions.isEmpty then
      ⟨store, "No valid questions found"⟩
    else if new_questions.any (fun r => r.length ≠ ingestColumns.length) then
      ⟨store, columnMismatchReply⟩
    else
      ⟨store ++ new_questions,
        "Successfully added " ++ toString new_questions.length ++ " new MCQ(s)!"⟩

/-! ## Concrete inputs used by the theorems below -/

/-- The fully valid example line the bot's own `/add_mcq` help message
shows: twelve comma-separated fields, answer `B`. -/
def demoLine : String :=
  "2023,1,Anatomy,Heart,Which chamber pumps blood to lungs?,Right atrium,Right ventricle,Left atrium,Left ventricle,B,Right ventricle pumps deoxygenated blood to lungs,textbook.pdf"

/-- A one-row store state. -/
def demoStore : List (List String) :=
  [["2022", "0", "Physiology", "Cell", "Q0", "a", "b", "c", "d", "A",
    "expl", "src"]]

/-- Three valid lines followed by one invalid line (its answer letter is
`E`): the batch of the specification's all-or-nothing test. -/
def batch3plus1 : String :=
  demoLine ++ "\n" ++ demoLine ++ "\n" ++ demoLine ++ "\n" ++
    "2023,4,Anatomy,Heart,Q4?,a,b,c,d,E,expl,src"

/-- A candidate row whose `Question` cell holds the empty string while
every required field is present and the answer key is valid. -/
def emptyQuestionRow : CandidateRow :=
  [("Year", some "2023"), ("Question Number", some "1"),
   ("Subject", some "Anatomy"), ("Topic", some "Heart"),
   ("Question", some ""), ("Option 1", some "a"), ("Option 2", some "b"),
   ("Option 3", some "c"), ("Option 4", some "d"), ("Answer", some "A"),
   ("Explanation", some "e"), ("Source", some "s")]

/-- A candidate row whose `Question` cell is `NaN` and whose answer key
is the invalid letter `E`. -/
def missingQuestionRow : CandidateRow :=
  [("Year", some "2023"), ("Question Number", some "1"),
   ("Subject", some "Anatomy"), ("Topic", some "Heart"),
   ("Question", none), ("Option 1", some "a"), ("Option 2", some "b"),
   ("Option 3", some "c"), ("Option 4", some "d"), ("Answer", some "E"),
   ("Explanation", some "e"), ("Source", some "s")]

/-- A candidate row whose `Option 3` cell is absent altogether, every
other field being present. -/
def missingOption3Row : CandidateRow :=
  [("Year", some "2023"), ("Question Number", some "1"),
   ("Subject", some "Anatomy"), ("Topic", some "Heart"),
   ("Question", some "q"), ("Option 1", some "a"), ("Option 2", some "b"),
   ("Option 4", some "d"), ("Answer", some "A"),
   ("Explanation", some "e"), ("Source", some "s")]

/-- A candidate row with every required field present whose answer key is
the invalid letter `E`. -/
def answerERow : CandidateRow :=
  [("Year", some "2023"), ("Question Number", some "1"),
   ("Subject", some "Anatomy"), ("Topic", some "Heart"),
   ("Question", some "q"), ("Option 1", some "a"), ("Option 2", some "b"),
   ("Option 3", some "c"), ("Option 4", some "d"), ("Answer", some "E"),
   ("Explanation", some "e"), ("Source", some "s")]

/-! ## Helper lemmas -/

/-- The 12-target tuple assignment always fails on a list that does not
have exactly twelve elements. -/
theorem unpack12_eq_none (l : List String) (h : l.length ≠ 12) :
    unpack12 l = none := by
  unfold unpack12
  split
  · simp at h
  · rfl

/-- The ingestion loop can only return the accumulator it was given:
every non-blank line either has fewer than eleven fields (rejecting the
batch with a field-count reply) or reaches the 12-from-11 tuple
assignment, which always raises. -/
theorem processLines_ok_eq (pairs : List (Nat × String))
    (acc l : List (List String)) (h : processLines pairs acc = .ok l) :
    l = acc := by
  induction pairs generalizing acc with
  | nil =>
    simp only [processLines] at h
    injection h with h2
    exact h2.symm
  | cons p rest ih =>
    obtain ⟨line_num, line⟩ := p
    simp only [processLines] at h
    split at h
    · exact ih acc h
    · split at h
      · exact absurd h (by simp)
      · rename_i hlen
        rw [unpack12_eq_none _ (by simp [List.length_take]; omega)] at h
        exact absurd h (by simp)

/-- The post-split evaluation never produces the "Invalid callback data"
reply: that reply is issued only by the payload-format gate. -/
theorem evaluate_answer_ne_invalid (df : List Question)
    (question_id selected_option correct_answer : String) :
    evaluate_answer df question_id selected_option correct_answer ≠
      CallbackResult.invalidCallback := by
  unfold evaluate_answer
  split
  · simp
  · split
    · simp
    · split <;> simp

/-! ## Claim theorems -/

set_option maxRecDepth 200000 in
/-- C1: the claim says appending N valid lines and reloading yields the
original count + N records with every field preserved.  The code cannot
do this for any batch: the 12-target tuple assignment over `row[:11]`
raises before validation, so `process_csv_data` leaves the store
unchanged on every input; in particular the bot's own fully valid
example line is rejected with the unpack `ValueError` reply instead of
being appended. -/
theorem ingest_roundtrip_never_appends :
    (∀ (store : List (List String)) (csv_text : String),
      (process_csv_data store csv_text).store = store) ∧
    process_csv_data demoStore demoLine = ⟨demoStore, unpackErrorReply⟩ := by
  constructor
  · intro store csv_text
    simp only [process_csv_data]
    rcases hp : processLines
        (((pySplit '\n' (pyStrip csv_text)).enum).map fun p => (p.fst + 1, p.snd))
        [] with e | l
    · simp [hp]
    · have hl : l = [] := processLines_ok_eq _ _ _ hp
      subst hl
      simp [hp]
  · decide

set_option maxRecDepth 200000 in
/-- C2: the claim says that on an invalid line the batch is rejected
with that line's number and reason and the store is unchanged.  On the
specification's own test batch (three valid lines, then a line whose
answer is `E`) the store is indeed unchanged, but the reply is the
generic unpack `ValueError` raised already at line 1, not a message
naming line 4 and its answer-letter reason. -/
theorem ingest_batch3plus1_outcome :
    process_csv_data demoStore batch3plus1 = ⟨demoStore, unpackErrorReply⟩ ∧
    unpackErrorReply ≠ "Line 4: Answer must be A, B, C, or D" := by
  constructor
  · decide
  · decide

/-- C3 (counterexample): the claim says the Validator rejects a record
whose `question_text` is empty, naming that field.  `pd.isna` is false
on the empty string, so `validate_question_data` accepts a record whose
`Question` cell is `""` (with a valid answer key) as `Valid`. -/
theorem validate_accepts_empty_question_text :
    fieldLookup emptyQuestionRow "Question" = some (some "") ∧
    validate_question_data emptyQuestionRow = (true, "Valid") := by
  constructor
  · decide
  · decide

/-- C3 (amended): whenever the ordered scan of `required_fields` finds a
first missing-or-`NaN` field — whichever field that is — the validator
rejects the record naming exactly that field, whatever the answer key
holds (so the completeness rule is applied before the answer-key rule),
and the named field really is a missing required field; a present
empty-string cell is never treated as missing. -/
theorem validate_missing_field_named (d : CandidateRow) (f : String)
    (hf : required_fields.find? (fun field => isMissingOrNa d field) =
      some f) :
    validate_question_data d = (false, "Missing or invalid field: " ++ f) ∧
    f ∈ required_fields ∧ isMissingOrNa d f = true := by
  refine ⟨?_, List.mem_of_find?_eq_some hf, List.find?_some hf⟩
  unfold validate_question_data
  rw [hf]

/-- Witness for the amended C3 theorem: a row whose `Question` cell is
`NaN` (with an invalid answer key) is rejected naming `Question`, and a
row whose `Option 3` cell is absent is rejected naming `Option 3`. -/
theorem validate_missing_field_named_witness :
    (validate_question_data missingQuestionRow =
        (false, "Missing or invalid field: Question") ∧
      "Question" ∈ required_fields ∧
      isMissingOrNa missingQuestionRow "Question" = true) ∧
    (validate_question_data missingOption3Row =
        (false, "Missing or invalid field: Option 3") ∧
      "Option 3" ∈ required_fields ∧
      isMissingOrNa missingOption3Row "Option 3" = true) := by
  constructor
  · have h := validate_missing_field_named missingQuestionRow "Question"
      (by decide)
    exact ⟨h.1.trans (by decide), h.2.1, h.2.2⟩
  · have h := validate_missing_field_named missingOption3Row "Option 3"
      (by decide)
    exact ⟨h.1.trans (by decide), h.2.1, h.2.2⟩

/-- C4: for a record all of whose required fields are present (and not
`NaN`), `validate_question_data` accepts exactly when the upper-cased
answer letter is one of A/B/C/D and otherwise rejects with the
invalid-answer error naming the offending value. -/
theorem validate_answer_key (d : CandidateRow) (a : String)
    (hreq : ∀ f ∈ required_fields, isMissingOrNa d f = false)
    (ha : fieldLookup d "Answer" = some (some a)) :
    validate_question_data d =
      (if ["A", "B", "C", "D"].contains (strUpper a) then (true, "Valid")
       else (false, "Invalid answer format: " ++ a)) := by
  unfold validate_question_data
  have hfind : required_fields.find? (fun field => isMissingOrNa d field) =
      none := by
    rw [List.find?_eq_none]
    intro x hx
    simp [hreq x hx]
  rw [hfind, ha]
  show (if ¬ (["A", "B", "C", "D"].contains (strUpper a) = true) then
      ((false : Bool), "Invalid answer format: " ++ a)
    else ((true : Bool), "Valid")) = _
  cases hc : ["A", "B", "C", "D"].contains (strUpper a) with
  | true => rfl
  | false => rfl

/-- Witness for C4: a concrete record whose answer key is `E` is
rejected with the invalid-answer error, as the specification's test
demands. -/
theorem validate_answer_key_witness :
    validate_question_data answerERow = (false, "Invalid answer format: E") :=
  (validate_answer_key answerERow "E" (by decide) (by decide)).trans (by decide)

/-- C5: for every store, stored question id and pair of option strings
for which feedback is produced, the evaluator reports `is_correct` true
exactly when the selected and recorded letters agree after upper-casing:
the feedback carries `strUpper selected == strUpper correct` as its
correctness flag. -/
theorem evaluate_answer_case_insensitive (df : List Question)
    (question_id selected_option correct_answer : String) (n : Int)
    (q : Question) (text : String)
    (hn : pyToInt? question_id = some n)
    (hq : lookupQuestion df n = some q)
    (ht : optionText q correct_answer = some text) :
    evaluate_answer df question_id selected_option correct_answer =
      CallbackResult.feedback
        (strUpper selected_option == strUpper correct_answer) text
        q.subject q.topic q.explanation q.source := by
  unfold evaluate_answer
  simp only [hn, hq, ht]

/-- Witness for C5: on the sample store, `evaluate(1, "b", "B")` and
`evaluate(1, "B", "b")` both report correct. -/
theorem evaluate_answer_case_insensitive_witness :
    evaluate_answer [sampleQ] "1" "b" "B" =
      CallbackResult.feedback true "Right ventricle" "Anatomy" "Heart"
        "Right ventricle pumps deoxygenated blood to lungs" "textbook.pdf" ∧
    evaluate_answer [sampleQ] "1" "B" "b" =
      CallbackResult.feedback true "Right ventricle" "Anatomy" "Heart"
        "Right ventricle pumps deoxygenated blood to lungs" "textbook.pdf" := by
  constructor
  · exact (evaluate_answer_case_insensitive [sampleQ] "1" "b" "B" 1 sampleQ
      "Right ventricle" (by decide) (by decide) (by decide)).trans (by decide)
  · exact (evaluate_answer_case_insensitive [sampleQ] "1" "B" "b" 1 sampleQ
      "Right ventricle" (by decide) (by decide) (by decide)).trans (by decide)

/-- C6: the correct option's display text is resolved positionally by
the letter's offset from `A`: letter A yields column `Option 1`
(`option_a`), B yields `Option 2` (`option_b`), C yields `Option 3`, D
yields `Option 4`; and on the specification's end-to-end store
(question 1 of subject Anatomy, correct option B whose `Option 2` cell
is "Right ventricle"), `evaluate(1, "B", "B")` yields `is_correct=true`
with `correct_option_text="Right ventricle"`. -/
theorem correct_option_text_positional :
    (∀ q : Question,
      optionText q "A" = some q.option1 ∧
      optionText q "B" = some q.option2 ∧
      optionText q "C" = some q.option3 ∧
      optionText q "D" = some q.option4) ∧
    evaluate_answer [sampleQ] "1" "B" "B" =
      CallbackResult.feedback true "Right ventricle" "Anatomy" "Heart"
        "Right ventricle pumps deoxygenated blood to lungs" "textbook.pdf" := by
  constructor
  · intro q
    exact ⟨rfl, rfl, rfl, rfl⟩
  · decide

/-- C7 (counterexample): the claim says the evaluator fails with the
question-not-found reply exactly when the question id resolves to no
stored record.  The id "abc" matches no stored record, yet the handler
raises in `int(question_id)` first and replies with the generic
processing error, not with the question-not-found reply. -/
theorem questionNotFound_counterexample :
    ([sampleQ].all (fun q => toString q.questionNumber ≠ "abc")) = true ∧
    evaluate_answer [sampleQ] "abc" "B" "B" ≠
      CallbackResult.questionNotFound ∧
    evaluate_answer [sampleQ] "abc" "B" "B" =
      CallbackResult.processingError := by
  refine ⟨by decide, by decide, by decide⟩

/-- C7 (amended): for an id that parses as an integer, the evaluator
replies question-not-found exactly when the store holds no record with
that question number (and then produces no feedback, the reply being the
not-found message); an id that `int()` rejects yields the generic
processing error instead. -/
theorem questionNotFound_iff_lookup_fails (df : List Question)
    (question_id selected_option correct_answer : String) (n : Int)
    (hn : pyToInt? question_id = some n) :
    (evaluate_answer df question_id selected_option correct_answer =
        CallbackResult.questionNotFound ↔ lookupQuestion df n = none) := by
  unfold evaluate_answer
  rw [hn]
  cases hq : lookupQuestion df n with
  | none => simp [hq]
  | some q =>
    cases ht : optionText q correct_answer with
    | none => simp [hq, ht]
    | some t => simp [hq, ht]

/-- Witness for the amended C7 theorem: on the sample store, id "2"
parses but matches no record, and the reply is question-not-found. -/
theorem questionNotFound_iff_lookup_fails_witness :
    (evaluate_answer [sampleQ] "2" "B" "B" =
        CallbackResult.questionNotFound ↔ lookupQuestion [sampleQ] 2 = none) :=
  questionNotFound_iff_lookup_fails [sampleQ] "2" "B" "B" 2 (by decide)

/-- C8: on every non-empty question table the selector returns a member
of that table, and on the empty table it raises
`ValueError("No MCQ data available")` instead of returning a question,
for every sampling index and recency-parameter choice. -/
theorem get_random_question_spec (df : List Question) (k : Nat)
    (exclude_recent : Bool) (recent_window_hours : Nat) :
    (df = [] → get_random_question df k exclude_recent recent_window_hours =
        Except.error "No MCQ data available") ∧
    (df ≠ [] → ∃ q, q ∈ df ∧
      get_random_question df k exclude_recent recent_window_hours =
        Except.ok q) := by
  constructor
  · intro h
    subst h
    rfl
  · intro h
    have hlen : df.length ≠ 0 := by
      simpa [List.length_eq_zero] using h
    refine ⟨df.get ⟨k % df.length, Nat.mod_lt _ (Nat.pos_of_ne_zero hlen)⟩,
      List.get_mem df _ _, ?_⟩
    unfold get_random_question
    rw [dif_neg hlen]

/-- Witness for C8: the empty store raises, and on the one-question
store the selector returns a member of it. -/
theorem get_random_question_spec_witness :
    get_random_question ([] : List Question) 0 true 24 =
      Except.error "No MCQ data available" ∧
    ∃ q, q ∈ [sampleQ] ∧
      get_random_question [sampleQ] 0 true 24 = Except.ok q :=
  ⟨(get_random_question_spec [] 0 true 24).1 rfl,
   (get_random_question_spec [sampleQ] 0 true 24).2 (by decide)⟩

/-- C9: the callback handler hands a payload to the evaluator exactly
when the payload splits on underscores into four fields headed by
"answer"; every other payload — for every store alike — is answered with
the invalid-callback reply before the store is consulted. -/
theorem handle_answer_callback_gate (df : List Question)
    (callback_data : String) :
    handle_answer_callback df callback_data ≠
        CallbackResult.invalidCallback ↔
      ∃ question_id selected_option correct_answer,
        pySplit '_' callback_data =
          ["answer", question_id, selected_option, correct_answer] := by
  unfold handle_answer_callback
  by_cases he : callback_data.data.isEmpty = true
  · have hd : callback_data.data = [] := by simpa using he
    have hs : pySplit '_' callback_data = [""] := by
      unfold pySplit
      rw [hd]
      rfl
    rw [if_pos he, hs]
    simp
  · rw [if_neg he]
    split
    · rename_i p0 question_id selected_option correct_answer heq
      by_cases hp : p0 = "answer"
      · rw [if_neg (by simp [hp])]
        constructor
        · intro _
          exact ⟨question_id, selected_option, correct_answer,
            by rw [heq, hp]⟩
        · intro _
          exact evaluate_answer_ne_invalid df question_id selected_option
            correct_answer
      · rw [if_pos (by simpa using hp)]
        constructor
        · intro habs
          exact absurd rfl habs
        · rintro ⟨a, b, c, habc⟩
          rw [heq] at habc
          injection habc with h1 _
          exact absurd h1 hp
    · rename_i hne
      constructor
      · intro habs
        exact absurd rfl habs
      · rintro ⟨a, b, c, habc⟩
        exact absurd habc (hne "answer" a b c)

/-- C10: the selector's result is independent of the recency parameters:
for the same table and the same randomness, `get_random_question`
returns the same thing for every value of `exclude_recent` and
`recent_window_hours` — the arguments have no effect (no memory of past
picks). -/
theorem get_random_question_ignores_recency (df : List Question) (k : Nat)
    (er₁ er₂ : Bool) (w₁ w₂ : Nat) :
    get_random_question df k er₁ w₁ = get_random_question df k er₂ w₂ :=
  rfl
